import Mathlib

/-!
Verification development for the voice-chat client's request pipeline:
the TTL cache (`src/frontend/src/utils/cache.ts`), the error classifier and
retry policy (`src/frontend/src/utils/errorHandler.ts`), the audio processor
(`src/frontend/src/utils/audioProcessor.ts`) and the resilient API client
(`src/frontend/src/utils/apiClient.ts`).

Modelling conventions:
* JavaScript 32-bit integer coercion (`x & x`, `x << 5`) is modelled on `Int`
  with an explicit reduction into `[-2^31, 2^31)`.
* A JavaScript value reaching the error classifier is modelled by `RawJS`:
  either `null`, `undefined`, or an object carrying exactly the fields the
  classifier inspects (`instanceof TypeError`, `message`, `status`, `name`).
  Property access on `null`/`undefined` throws; on every other value it is
  total (absent fields read as `undefined`, modelled by `none`).
* Wall-clock time (`Date.now()`) is passed explicitly as a `Nat` parameter.
* The network is modelled by a function `Nat → Except JSObj String` giving,
  for each attempt number, either the thrown error object (from `fetch` or
  from `handleResponse`) or the successful payload string.
* Audio decoding (`decodeAudioData`) is a platform collaborator, modelled as
  a function `Blob → Option AudioBuffer`; `none` models the decode (or any
  step inside the surrounding `try`) throwing.  Floating-point sample values
  are abstracted: the encoder keeps the exact byte count (44-byte header plus
  16-bit samples) and the exact header sample rate, which is all the
  specification's claims about the processor observe.
-/

/-- Reduce an integer into the range `[-2^31, 2^31)`, as JavaScript's
`ToInt32` does for the operands and result of bitwise operators. -/
def toInt32 (n : Int) : Int := (n + 2 ^ 31) % 2 ^ 32 - 2 ^ 31

/-- One step of `ResponseCache.createHash`:
`hash = ((hash << 5) - hash) + char; hash = hash & hash`.  `hash << 5` is
`ToInt32(hash * 32)`; the subsequent `& hash` coerces the sum back to a
32-bit signed integer. -/
def hashStep (h : Int) (c : Nat) : Int := toInt32 (toInt32 (h * 32) - h + c)

/-- Digit character for `Number.prototype.toString(36)`: `0`-`9` then `a`-`z`. -/
def digit36 (n : Nat) : Char := if n < 10 then Char.ofNat (48 + n) else Char.ofNat (87 + n)

/-- Fuel-driven base-36 digit expansion (most significant digit first). -/
def base36Aux : Nat → Nat → List Char
  | 0, _ => []
  | fuel + 1, n => if n = 0 then [] else base36Aux fuel (n / 36) ++ [digit36 (n % 36)]

/-- `Nat.toString(36)` as JavaScript renders a non-negative integer. -/
def toBase36 (n : Nat) : String := if n = 0 then "0" else String.mk (base36Aux n n)

/-- `ResponseCache.createHash` over the UTF-16 code units of the decoded
content: fold `hashStep` from 0, then `Math.abs(hash).toString(36)`. -/
def createHashUnits (units : List Nat) : String :=
  toBase36 (units.foldl hashStep 0).natAbs

/-- `ResponseCache.createHash` on a string input (`charCodeAt` over its
characters; code points below `0x10000` coincide with code units). -/
def createHashString (s : String) : String :=
  createHashUnits (s.toList.map Char.toNat)

/-- `Cache.createKey(prefix, param)`: `` `${prefix}:${params.join(':')}` ``
at the single-parameter arity used by `ResponseCache`. -/
def createKey (pre : String) (param : String) : String := pre ++ ":" ++ param

/-! ## Error classifier (`errorHandler.ts`) -/

/-- The closed `ErrorType` taxonomy from `types/api.ts`. -/
inductive ErrorType where
  | NETWORK_ERROR
  | API_ERROR
  | MICROPHONE_ERROR
  | TRANSCRIPTION_ERROR
  | CHAT_ERROR
  | UNKNOWN_ERROR
deriving DecidableEq

/-- The fields of a JavaScript error-like object that the classifier reads:
whether it is an `instanceof TypeError`, its `message`, and the optional
`status` and `name` fields (`none` models `undefined`). -/
structure JSObj where
  isTypeError : Bool
  message : String
  status : Option Int
  name : Option String
deriving DecidableEq

/-- A JavaScript value reaching the classifier: `null`, `undefined`, or an
error-like value.  Non-null primitives behave as field-less objects for the
property reads the classifier performs. -/
inductive RawJS where
  | jsNull
  | jsUndefined
  | obj (o : JSObj)
deriving DecidableEq

/-- `AppError` from `types/api.ts`, as built by `ErrorHandler.createError`. -/
structure AppError where
  type : ErrorType
  message : String
  retryable : Bool
  originalError : Option RawJS
deriving DecidableEq

/-- `ErrorHandler.createError`. -/
def createError (t : ErrorType) (msg : String) (orig : Option RawJS)
    (retryable : Bool) : AppError :=
  ⟨t, msg, retryable, orig⟩

/-- `String.prototype.includes`: `needle` occurs as a contiguous substring. -/
def strIncludes (hay needle : String) : Bool :=
  (List.range (hay.toList.length + 1)).any
    (fun i => needle.toList.isPrefixOf (hay.toList.drop i))

/-- The `switch (error.status)` arm of `ErrorHandler.handleApiError`. -/
def classifyStatus (s : Int) (o : JSObj) : AppError :=
  if s = 400 then
    createError .API_ERROR "Invalid request. Please try again." (some (.obj o)) false
  else if s = 401 then
    createError .API_ERROR "Authentication failed. Please check your API key."
      (some (.obj o)) false
  else if s = 429 then
    createError .API_ERROR "Too many requests. Please wait a moment and try again."
      (some (.obj o)) true
  else if s = 500 then
    createError .API_ERROR "Server error. Please try again later." (some (.obj o)) true
  else
    createError .API_ERROR ("Server error (" ++ toString s ++ "). Please try again.")
      (some (.obj o)) true

/-- The context-specific tail of `ErrorHandler.handleApiError`. -/
def classifyContext (o : JSObj) (context : String) : AppError :=
  if context = "transcription" then
    createError .TRANSCRIPTION_ERROR "Failed to transcribe audio. Please try recording again."
      (some (.obj o)) true
  else if context = "chat" then
    createError .CHAT_ERROR "Failed to get AI response. Please try again."
      (some (.obj o)) true
  else
    createError .UNKNOWN_ERROR "An unexpected error occurred. Please try again."
      (some (.obj o)) true

/-- `ErrorHandler.handleApiError` restricted to object (non-null,
non-undefined) inputs, on which every property read is defined: first the
network check (`error instanceof TypeError && error.message.includes('fetch')`),
then the truthy `error.status` switch (`0` and absent are falsy), then the
context cases. -/
def classify (o : JSObj) (context : String) : AppError :=
  if o.isTypeError && strIncludes o.message "fetch" then
    createError .NETWORK_ERROR
      "Unable to connect to the server. Please check your internet connection."
      (some (.obj o)) true
  else
    match o.status with
    | some s => if s ≠ 0 then classifyStatus s o else classifyContext o context
    | none => classifyContext o context

/-- `ErrorHandler.handleApiError` on an arbitrary JavaScript value.  The
`instanceof` test never throws, but reading `error.status` on `null` or
`undefined` throws a `TypeError`, modelled by `Except.error ()`. -/
def handleApiError (e : RawJS) (context : String) : Except Unit AppError :=
  match e with
  | .jsNull => .error ()
  | .jsUndefined => .error ()
  | .obj o => .ok (classify o context)

/-- `ErrorHandler.handleMicrophoneError` restricted to object inputs:
dispatch on `error.name`. -/
def micClassify (o : JSObj) : AppError :=
  if o.name = some "NotAllowedError" then
    createError .MICROPHONE_ERROR
      "Microphone access denied. Please allow microphone permissions and try again."
      (some (.obj o)) false
  else if o.name = some "NotFoundError" then
    createError .MICROPHONE_ERROR
      "No microphone found. Please connect a microphone and try again."
      (some (.obj o)) false
  else if o.name = some "NotSupportedError" then
    createError .MICROPHONE_ERROR
      "Your browser does not support audio recording. Please try a different browser."
      (some (.obj o)) false
  else
    createError .MICROPHONE_ERROR
      "Failed to access microphone. Please check your microphone settings."
      (some (.obj o)) true

/-- `ErrorHandler.handleMicrophoneError` on an arbitrary JavaScript value:
reading `error.name` on `null`/`undefined` throws. -/
def handleMicrophoneError (e : RawJS) : Except Unit AppError :=
  match e with
  | .jsNull => .error ()
  | .jsUndefined => .error ()
  | .obj o => .ok (micClassify o)

/-- `ErrorHandler.getRetryDelay`: `Math.min(1000 * Math.pow(2, attempt), 10000)`. -/
def getRetryDelay (attempt : Nat) : Nat := min (1000 * 2 ^ attempt) 10000

/-- `ErrorHandler.shouldRetry`:
`error.retryable === true && attempt < maxAttempts`. -/
def shouldRetry (e : AppError) (attempt maxAttempts : Nat) : Bool :=
  e.retryable && decide (attempt < maxAttempts)

/-! ## TTL cache (`cache.ts`) -/

/-- `CacheItem<T>`: value plus creation timestamp and absolute expiry. -/
structure CacheItem (T : Type) where
  data : T
  timestamp : Nat
  expiresAt : Nat
deriving DecidableEq

/-- The `Map` backing a `Cache` instance, modelled as an association list
observed only through key lookup. -/
abbrev CacheStore (T : Type) := List (String × CacheItem T)

/-- `Map.prototype.get`: the binding for `k`, if any. -/
def storeGet {T : Type} (s : CacheStore T) (k : String) : Option (CacheItem T) :=
  match s.find? (fun p => p.1 == k) with
  | some p => some p.2
  | none => none

/-- `Map.prototype.delete k`: remove the binding for `k`. -/
def storeDelete {T : Type} (s : CacheStore T) (k : String) : CacheStore T :=
  s.filter (fun p => !(p.1 == k))

/-- `Map.prototype.set k it`: replace any binding for `k` with `it`.
Modelled as delete-then-prepend, which has the same lookup semantics. -/
def storeSet {T : Type} (s : CacheStore T) (k : String) (it : CacheItem T) : CacheStore T :=
  (k, it) :: storeDelete s k

/-- `Cache.cleanup`: drop every entry with `now > expiresAt`. -/
def cleanup {T : Type} (now : Nat) (s : CacheStore T) : CacheStore T :=
  s.filter (fun p => decide (now ≤ p.2.expiresAt))

/-- `Cache.set(key, data, ttl)` at time `now`: store
`{data, timestamp: now, expiresAt: now + ttl}`, then run `cleanup`. -/
def cacheSet {T : Type} (now : Nat) (k : String) (v : T) (ttl : Nat)
    (s : CacheStore T) : CacheStore T :=
  cleanup now (storeSet s k ⟨v, now, now + ttl⟩)

/-- `Cache.get(key)` at time `now`: absent if no entry; if
`Date.now() > expiresAt`, delete the entry and return absent; otherwise
return the data.  The pair carries the store after the call. -/
def cacheGet {T : Type} (now : Nat) (k : String) (s : CacheStore T) :
    Option T × CacheStore T :=
  match storeGet s k with
  | none => (none, s)
  | some item =>
    if item.expiresAt < now then (none, storeDelete s k) else (some item.data, s)

/-- `Cache.has(key)`: `this.get(key) !== null`, including `get`'s
opportunistic deletion of an expired entry. -/
def cacheHas {T : Type} (now : Nat) (k : String) (s : CacheStore T) :
    Bool × CacheStore T :=
  let r := cacheGet now k s
  ((r.1).isSome, r.2)

/-- `ResponseCache.TRANSCRIPTION_TTL`: 10 minutes in milliseconds. -/
def TRANSCRIPTION_TTL : Nat := 10 * 60 * 1000

/-- `ResponseCache.CHAT_TTL`: 5 minutes in milliseconds. -/
def CHAT_TTL : Nat := 5 * 60 * 1000

/-- `ResponseCache.getCachedTranscription`. -/
def getCachedTranscription (now : Nat) (audioHash : String) (s : CacheStore String) :
    Option String × CacheStore String :=
  cacheGet now (createKey "transcription" audioHash) s

/-- `ResponseCache.cacheTranscription`. -/
def cacheTranscription (now : Nat) (audioHash : String) (transcript : String)
    (s : CacheStore String) : CacheStore String :=
  cacheSet now (createKey "transcription" audioHash) transcript TRANSCRIPTION_TTL s

/-- `ResponseCache.getCachedChatResponse`. -/
def getCachedChatResponse (now : Nat) (messageHash : String) (s : CacheStore String) :
    Option String × CacheStore String :=
  cacheGet now (createKey "chat" messageHash) s

/-- `ResponseCache.cacheChatResponse`. -/
def cacheChatResponse (now : Nat) (messageHash : String) (response : String)
    (s : CacheStore String) : CacheStore String :=
  cacheSet now (createKey "chat" messageHash) response CHAT_TTL s

/-! ## Audio processor (`audioProcessor.ts`) -/

/-- An audio `Blob`: its byte sequence and, per the data model, the sample
rate recorded in its container header (offset 24 of the WAV header for the
blobs this processor emits). -/
structure Blob where
  content : List Nat
  sampleRate : Nat
deriving DecidableEq

/-- `Blob.size`: the byte count. -/
def Blob.size (b : Blob) : Nat := b.content.length

/-- The decoded `AudioBuffer` shape observed by the processor.  Sample values
are floating-point and abstracted away; every claim about the processor
observes only channel count, frame count and sample rate. -/
structure AudioBuffer where
  numberOfChannels : Nat
  frames : Nat
  sampleRate : Nat
deriving DecidableEq

/-- A platform audio decoder (`decodeAudioData`): `none` models the decode
(or any step of the surrounding `try` block) throwing. -/
abbrev Decoder := Blob → Option AudioBuffer

/-- `AudioProcessor.audioBufferToBlob`: a 44-byte WAV header followed by
16-bit PCM samples (`frames * channels * 2` bytes).  Byte values (header
field encoding and float-to-PCM conversion scaled by the quality factor) are
abstracted; the byte count and the header's sample-rate field are exact. -/
def audioBufferToBlob (buf : AudioBuffer) : Blob :=
  ⟨List.replicate (44 + buf.frames * buf.numberOfChannels * 2) 0, buf.sampleRate⟩

/-- `AudioProcessor.compressAudio`: decode, downsample to
`Math.min(sampleRate, 22050)` into a mono buffer of
`Math.floor(frames * targetRate / sampleRate)` frames, re-encode as WAV; on
any failure, return the original blob. -/
def compressAudio (dec : Decoder) (audioBlob : Blob) : Blob :=
  match dec audioBlob with
  | none => audioBlob
  | some audioBuffer =>
    let targetSampleRate := min audioBuffer.sampleRate 22050
    let compressedFrames := audioBuffer.frames * targetSampleRate / audioBuffer.sampleRate
    audioBufferToBlob ⟨1, compressedFrames, targetSampleRate⟩

/-- `AudioProcessor.applyNoiseReduction`: decode, run the high-pass
recurrence `y[i] = 0.85 * (y[i-1] + x[i] - x[i-1])` per channel (sample
values abstracted; channel count, frame count and sample rate preserved),
re-encode as WAV; on any failure, return the original blob. -/
def applyNoiseReduction (dec : Decoder) (audioBlob : Blob) : Blob :=
  match dec audioBlob with
  | none => audioBlob
  | some audioBuffer =>
    audioBufferToBlob
      ⟨audioBuffer.numberOfChannels, audioBuffer.frames, audioBuffer.sampleRate⟩

/-- The processing pipeline of `ApiClient.transcribeAudio` (lines 72-83):
always apply noise reduction; compress only when the original byte size
exceeds 200 KiB.  The second component counts compression invocations. -/
def processForUpload (dec : Decoder) (audioBlob : Blob) : Blob × Nat :=
  let originalSize := audioBlob.size
  let processedBlob := applyNoiseReduction dec audioBlob
  if originalSize > 200 * 1024 then (compressAudio dec processedBlob, 1)
  else (processedBlob, 0)

/-! ## Resilient API client (`apiClient.ts`) -/

instance {ε α : Type} [DecidableEq ε] [DecidableEq α] : DecidableEq (Except ε α) :=
  fun x y =>
    match x, y with
    | .ok a, .ok b =>
      if h : a = b then .isTrue (by rw [h])
      else .isFalse (by intro hc; cases hc; exact h rfl)
    | .ok _, .error _ => .isFalse (by intro hc; cases hc)
    | .error _, .ok _ => .isFalse (by intro hc; cases hc)
    | .error e, .error f =>
      if h : e = f then .isTrue (by rw [h])
      else .isFalse (by intro hc; cases hc; exact h rfl)

/-- The observable outcome of one retry loop: the surfaced result, the number
of underlying requests issued, and the sequence of backoff sleeps performed. -/
structure LoopOut where
  result : Except AppError String
  requests : Nat
  sleeps : List Nat
deriving DecidableEq

/-- The `new Error('Max retries exceeded')` object built after the loop. -/
def maxRetriesExceeded : JSObj := ⟨false, "Max retries exceeded", none, none⟩

/-- The retry loop shared by `transcribeAudio` and `sendChatMessage`
(`for (let attempt = 0; attempt <= retryAttempts; attempt++)`), driven by
fuel (initially `retryAttempts + 1`, the number of remaining iterations).
Each iteration issues one request; on a thrown error it classifies it and
either surfaces the `AppError` (when `attempt === retryAttempts` or
`!shouldRetry(...)`) or sleeps `getRetryDelay(attempt)` and continues.  The
fuel-0 case is the unreachable fall-through after the loop. -/
def retryLoop (outcomes : Nat → Except JSObj String) (context : String)
    (retryAttempts : Nat) : Nat → Nat → LoopOut
  | 0, _ => ⟨.error (classify maxRetriesExceeded context), 0, []⟩
  | fuel + 1, attempt =>
    match outcomes attempt with
    | .ok result => ⟨.ok result, 1, []⟩
    | .error e =>
      let appError := classify e context
      if attempt == retryAttempts || !(shouldRetry appError attempt retryAttempts) then
        ⟨.error appError, 1, []⟩
      else
        let rest := retryLoop outcomes context retryAttempts fuel (attempt + 1)
        ⟨rest.result, rest.requests + 1, getRetryDelay attempt :: rest.sleeps⟩

/-- The observable trace of one `transcribeAudio` call: surfaced result,
requests issued, backoff sleeps, how many times each processing step ran,
the processed payload handed to the loop (if any), and the cache store after
the call. -/
structure CallTrace where
  result : Except AppError String
  requests : Nat
  sleeps : List Nat
  noiseApplied : Nat
  compressionApplied : Nat
  payload : Option Blob
  store : CacheStore String
deriving DecidableEq

/-- The cache-miss path of `ApiClient.transcribeAudio`: process the audio
once, run the retry loop on the fixed processed payload, and on success
cache the transcript under the precomputed hash. -/
def transcribeSend (dec : Decoder) (outcomes : Nat → Except JSObj String)
    (now : Nat) (audioBlob : Blob) (retryAttempts : Nat) (audioHash : String)
    (store : CacheStore String) : CallTrace :=
  let processed := processForUpload dec audioBlob
  let out := retryLoop outcomes "transcription" retryAttempts (retryAttempts + 1) 0
  match out.result with
  | .ok result =>
    ⟨.ok result, out.requests, out.sleeps, 1, processed.2, some processed.1,
      cacheTranscription now audioHash result store⟩
  | .error a =>
    ⟨.error a, out.requests, out.sleeps, 1, processed.2, some processed.1, store⟩

/-- `ApiClient.transcribeAudio`: hash the audio content, consult the cache
(`if (cachedResult)` — a cached empty string is falsy and does not count as
a hit), and on a hit return it with no processing and no requests; otherwise
run the miss path. -/
def transcribeAudio (dec : Decoder) (outcomes : Nat → Except JSObj String)
    (now : Nat) (audioBlob : Blob) (retryAttempts : Nat)
    (store : CacheStore String) : CallTrace :=
  let audioHash := createHashUnits audioBlob.content
  let lookup := getCachedTranscription now audioHash store
  match lookup.1 with
  | some cachedResult =>
    if cachedResult ≠ "" then ⟨.ok cachedResult, 0, [], 0, 0, none, lookup.2⟩
    else transcribeSend dec outcomes now audioBlob retryAttempts audioHash lookup.2
  | none => transcribeSend dec outcomes now audioBlob retryAttempts audioHash lookup.2

/-- The observable trace of one `sendChatMessage` call. -/
structure ChatTrace where
  result : Except AppError String
  requests : Nat
  sleeps : List Nat
  store : CacheStore String
deriving DecidableEq

/-- The cache-miss path of `ApiClient.sendChatMessage`. -/
def chatSend (outcomes : Nat → Except JSObj String) (now : Nat)
    (retryAttempts : Nat) (messageHash : String) (store : CacheStore String) :
    ChatTrace :=
  let out := retryLoop outcomes "chat" retryAttempts (retryAttempts + 1) 0
  match out.result with
  | .ok result =>
    ⟨.ok result, out.requests, out.sleeps, cacheChatResponse now messageHash result store⟩
  | .error a => ⟨.error a, out.requests, out.sleeps, store⟩

/-- `ApiClient.sendChatMessage`: hash the message, consult the cache with the
same truthiness test, and on a miss run the retry loop and cache the reply. -/
def sendChatMessage (outcomes : Nat → Except JSObj String) (now : Nat)
    (message : String) (retryAttempts : Nat) (store : CacheStore String) :
    ChatTrace :=
  let messageHash := createHashString message
  let lookup := getCachedChatResponse now messageHash store
  match lookup.1 with
  | some cachedResult =>
    if cachedResult ≠ "" then ⟨.ok cachedResult, 0, [], lookup.2⟩
    else chatSend outcomes now retryAttempts messageHash lookup.2
  | none => chatSend outcomes now retryAttempts messageHash lookup.2

/-! ## Store lemmas -/

/-- Deleting a key removes its binding. -/
theorem storeGet_storeDelete_self {T : Type} (s : CacheStore T) (k : String) :
    storeGet (storeDelete s k) k = none := by
  induction s with
  | nil => rfl
  | cons p rest ih =>
    by_cases h : p.1 = k
    · simpa [storeDelete, List.filter_cons, h] using ih
    · simpa [storeDelete, storeGet, List.filter_cons, List.find?_cons, h] using ih

/-- Deleting a key leaves every other binding untouched. -/
theorem storeGet_storeDelete_ne {T : Type} (s : CacheStore T) (k k2 : String)
    (h : k2 ≠ k) : storeGet (storeDelete s k) k2 = storeGet s k2 := by
  induction s with
  | nil => rfl
  | cons p rest ih =>
    by_cases h1 : p.1 = k
    · have h3 : k ≠ k2 := fun hc => h hc.symm
      simpa [storeDelete, storeGet, List.filter_cons, List.find?_cons, h1, h3] using ih
    · by_cases h2 : p.1 = k2
      · simp [storeDelete, storeGet, List.filter_cons, List.find?_cons, h1, h2, h]
      · simpa [storeDelete, storeGet, List.filter_cons, List.find?_cons, h1, h2] using ih

/-- After `cacheSet` the key holds exactly the fresh item. -/
theorem cacheSet_storeGet_self {T : Type} (now : Nat) (k : String) (v : T)
    (ttl : Nat) (s : CacheStore T) :
    storeGet (cacheSet now k v ttl s) k = some ⟨v, now, now + ttl⟩ := by
  simp [cacheSet, cleanup, storeSet, List.filter_cons, Nat.le_add_right,
    storeGet, List.find?_cons]

/-! ## Claims about the cache -/

/-- C6: a `get` after `set(key, v, ttl)` while the current time is within the
entry's ttl returns `v`; a `get` after the expiry returns absent and removes
the entry, so a follow-up `has` (at any time) returns false; and in general
an entry is visible to a reader at time `t` iff `t ≤ expiresAt`. -/
theorem c6_cache_ttl_visibility {T : Type} (s : CacheStore T) (k : String) (v : T)
    (ttl t0 t1 : Nat) :
    (t1 ≤ t0 + ttl → (cacheGet t1 k (cacheSet t0 k v ttl s)).1 = some v)
    ∧ (t0 + ttl < t1 →
        (cacheGet t1 k (cacheSet t0 k v ttl s)).1 = none
        ∧ ∀ t2, (cacheHas t2 k (cacheGet t1 k (cacheSet t0 k v ttl s)).2).1 = false)
    ∧ (∀ (s2 : CacheStore T) (t : Nat),
        ((cacheGet t k s2).1.isSome ↔ ∃ it, storeGet s2 k = some it ∧ t ≤ it.expiresAt)) := by
  refine ⟨?_, ?_, ?_⟩
  · intro h
    have hle : ¬(t0 + ttl < t1) := by omega
    simp [cacheGet, cacheSet_storeGet_self, hle]
  · intro h
    constructor
    · simp [cacheGet, cacheSet_storeGet_self, h]
    · intro t2
      have hst : (cacheGet t1 k (cacheSet t0 k v ttl s)).2 =
          storeDelete (cacheSet t0 k v ttl s) k := by
        simp [cacheGet, cacheSet_storeGet_self, h]
      rw [hst]
      simp [cacheHas, cacheGet, storeGet_storeDelete_self]
  · intro s2 t
    cases hg : storeGet s2 k with
    | none => simp [cacheGet, hg]
    | some it =>
      by_cases he : it.expiresAt < t
      · simp only [cacheGet, hg, he, if_pos]
        constructor
        · intro hc; simp at hc
        · rintro ⟨it2, hit2, hle2⟩
          injection hit2 with h4
          subst h4
          exact absurd hle2 (by omega)
      · simp only [cacheGet, hg, he, if_neg, not_false_iff]
        constructor
        · intro _; exact ⟨it, rfl, by omega⟩
        · intro _; simp

/-- C6 witness: with an empty store, `set` at time 0 with ttl 10 then `get`
at time 5 yields the stored value. -/
theorem c6_cache_ttl_visibility_witness :
    (cacheGet 5 "k" (cacheSet 0 "k" (7 : Nat) 10 [])).1 = some 7 :=
  (c6_cache_ttl_visibility [] "k" 7 10 0 5).1 (by decide)

/-- C10: reads are frame-preserving — `get` and `has` on a missing key or a
non-expired entry return the store entirely unchanged (in particular no
expiry is extended), and on an expired entry they perform exactly the
deletion of that key, leaving every other key's binding untouched. -/
theorem c10_read_frame {T : Type} (s : CacheStore T) (k : String) (t : Nat) :
    (∀ it, storeGet s k = some it → t ≤ it.expiresAt →
        (cacheGet t k s).2 = s ∧ (cacheHas t k s).2 = s)
    ∧ (storeGet s k = none → (cacheGet t k s).2 = s ∧ (cacheHas t k s).2 = s)
    ∧ (∀ it, storeGet s k = some it → it.expiresAt < t →
        (cacheGet t k s).2 = storeDelete s k
        ∧ (cacheHas t k s).2 = storeDelete s k
        ∧ ∀ k2, k2 ≠ k → storeGet ((cacheGet t k s).2) k2 = storeGet s k2) := by
  refine ⟨?_, ?_, ?_⟩
  · intro it hit hle
    have he : ¬(it.expiresAt < t) := by omega
    constructor
    · simp [cacheGet, hit, he]
    · simp [cacheHas, cacheGet, hit, he]
  · intro hnone
    constructor
    · simp [cacheGet, hnone]
    · simp [cacheHas, cacheGet, hnone]
  · intro it hit he
    refine ⟨?_, ?_, ?_⟩
    · simp [cacheGet, hit, he]
    · simp [cacheHas, cacheGet, hit, he]
    · intro k2 hk2
      have h2 : (cacheGet t k s).2 = storeDelete s k := by simp [cacheGet, hit, he]
      rw [h2]
      exact storeGet_storeDelete_ne s k k2 hk2

/-- C10 witness: reading a live entry at time 5 leaves the concrete store
unchanged. -/
theorem c10_read_frame_witness :
    (cacheGet 5 "k" [("k", (⟨3, 0, 10⟩ : CacheItem Nat))]).2 =
      [("k", (⟨3, 0, 10⟩ : CacheItem Nat))] :=
  ((c10_read_frame [("k", (⟨3, 0, 10⟩ : CacheItem Nat))] "k" 5).1
    ⟨3, 0, 10⟩ (by decide) (by decide)).1

/-! ## Retry loop and client-path lemmas -/

/-- The truthiness test the client applies to a cache lookup
(`if (cachedResult)`): truthy iff present and a non-empty string. -/
def truthyHit : Option String → Bool
  | some c => c != ""
  | none => false

/-- A failed attempt aborts when `attempt === retryAttempts` or the
classified error is not retryable. -/
theorem retryLoop_abort (outcomes : Nat → Except JSObj String) (context : String)
    (maxAttempts attempt fuel : Nat) (e : JSObj)
    (hout : outcomes attempt = Except.error e)
    (h : attempt = maxAttempts ∨ (classify e context).retryable = false) :
    retryLoop outcomes context maxAttempts (fuel + 1) attempt =
      ⟨.error (classify e context), 1, []⟩ := by
  rcases h with h | h
  · subst h
    simp [retryLoop, hout]
  · simp [retryLoop, hout, shouldRetry, h]

/-- A failed attempt below the budget with a retryable classified error
sleeps `getRetryDelay attempt` and reissues. -/
theorem retryLoop_retry (outcomes : Nat → Except JSObj String) (context : String)
    (maxAttempts attempt fuel : Nat) (e : JSObj)
    (hout : outcomes attempt = Except.error e)
    (hlt : attempt < maxAttempts)
    (hr : (classify e context).retryable = true) :
    retryLoop outcomes context maxAttempts (fuel + 1) attempt =
      ⟨(retryLoop outcomes context maxAttempts fuel (attempt + 1)).result,
        (retryLoop outcomes context maxAttempts fuel (attempt + 1)).requests + 1,
        getRetryDelay attempt ::
          (retryLoop outcomes context maxAttempts fuel (attempt + 1)).sleeps⟩ := by
  have hne : (attempt == maxAttempts) = false := by
    simp only [beq_eq_false_iff_ne]
    omega
  simp [retryLoop, hout, shouldRetry, hr, hne, hlt]

/-- The compression counter of the pipeline is at most one. -/
theorem processForUpload_count (dec : Decoder) (b : Blob) :
    (processForUpload dec b).2 ≤ 1 := by
  by_cases h : b.size > 200 * 1024 <;> simp [processForUpload, h]

/-- `transcribeSend` on a loop failure: fields of the resulting trace. -/
theorem transcribeSend_error (dec : Decoder) (outs : Nat → Except JSObj String)
    (now : Nat) (b : Blob) (ra : Nat) (hsh : String) (store : CacheStore String)
    (a : AppError) (n : Nat) (sl : List Nat)
    (hres : retryLoop outs "transcription" ra (ra + 1) 0 = ⟨.error a, n, sl⟩) :
    transcribeSend dec outs now b ra hsh store =
      ⟨.error a, n, sl, 1, (processForUpload dec b).2,
        some (processForUpload dec b).1, store⟩ := by
  simp [transcribeSend, hres]

/-- `transcribeSend` on a loop success: the transcript is cached. -/
theorem transcribeSend_ok (dec : Decoder) (outs : Nat → Except JSObj String)
    (now : Nat) (b : Blob) (ra : Nat) (hsh : String) (store : CacheStore String)
    (tr : String) (n : Nat) (sl : List Nat)
    (hres : retryLoop outs "transcription" ra (ra + 1) 0 = ⟨.ok tr, n, sl⟩) :
    transcribeSend dec outs now b ra hsh store =
      ⟨.ok tr, n, sl, 1, (processForUpload dec b).2,
        some (processForUpload dec b).1, cacheTranscription now hsh tr store⟩ := by
  simp [transcribeSend, hres]

/-- When the cache lookup is not a truthy hit, `transcribeAudio` runs the
miss path on the post-lookup store. -/
theorem transcribeAudio_miss (dec : Decoder) (outs : Nat → Except JSObj String)
    (now : Nat) (b : Blob) (ra : Nat) (store : CacheStore String)
    (h : truthyHit (getCachedTranscription now (createHashUnits b.content) store).1
          = false) :
    transcribeAudio dec outs now b ra store =
      transcribeSend dec outs now b ra (createHashUnits b.content)
        (getCachedTranscription now (createHashUnits b.content) store).2 := by
  unfold transcribeAudio
  cases hl : (getCachedTranscription now (createHashUnits b.content) store).1 with
  | none => simp [hl]
  | some c =>
    rw [hl] at h
    have hc : c = "" := by
      by_cases hc1 : c = ""
      · exact hc1
      · simp [truthyHit, hc1] at h
    subst hc
    simp [hl]

/-- When the cache lookup is a truthy hit, `transcribeAudio` returns it with
no processing, no request and no sleep. -/
theorem transcribeAudio_hit (dec : Decoder) (outs : Nat → Except JSObj String)
    (now : Nat) (b : Blob) (ra : Nat) (store : CacheStore String) (c : String)
    (h : (getCachedTranscription now (createHashUnits b.content) store).1 = some c)
    (hc : c ≠ "") :
    transcribeAudio dec outs now b ra store =
      ⟨.ok c, 0, [], 0, 0, none,
        (getCachedTranscription now (createHashUnits b.content) store).2⟩ := by
  unfold transcribeAudio
  simp [h, hc]

/-- `chatSend` on a loop failure: fields of the resulting trace. -/
theorem chatSend_error (outs : Nat → Except JSObj String) (now : Nat) (ra : Nat)
    (hsh : String) (store : CacheStore String) (a : AppError) (n : Nat)
    (sl : List Nat)
    (hres : retryLoop outs "chat" ra (ra + 1) 0 = ⟨.error a, n, sl⟩) :
    chatSend outs now ra hsh store = ⟨.error a, n, sl, store⟩ := by
  simp [chatSend, hres]

/-- When the cache lookup is not a truthy hit, `sendChatMessage` runs the
miss path on the post-lookup store. -/
theorem sendChatMessage_miss (outs : Nat → Except JSObj String) (now : Nat)
    (msg : String) (ra : Nat) (store : CacheStore String)
    (h : truthyHit (getCachedChatResponse now (createHashString msg) store).1
          = false) :
    sendChatMessage outs now msg ra store =
      chatSend outs now ra (createHashString msg)
        (getCachedChatResponse now (createHashString msg) store).2 := by
  unfold sendChatMessage
  cases hl : (getCachedChatResponse now (createHashString msg) store).1 with
  | none => simp [hl]
  | some c =>
    rw [hl] at h
    have hc : c = "" := by
      by_cases hc1 : c = ""
      · exact hc1
      · simp [truthyHit, hc1] at h
    subst hc
    simp [hl]

/-- Audio processing happens at most once per `transcribeAudio` call,
whatever the retry loop does. -/
theorem transcribeAudio_process_once (dec : Decoder)
    (outs : Nat → Except JSObj String) (now : Nat) (b : Blob) (ra : Nat)
    (store : CacheStore String) :
    (transcribeAudio dec outs now b ra store).noiseApplied ≤ 1
    ∧ (transcribeAudio dec outs now b ra store).compressionApplied ≤ 1 := by
  by_cases h : truthyHit
      (getCachedTranscription now (createHashUnits b.content) store).1 = false
  · rw [transcribeAudio_miss dec outs now b ra store h]
    cases hres : retryLoop outs "transcription" ra (ra + 1) 0 with
    | mk r n sl =>
      cases r with
      | ok tr =>
        rw [transcribeSend_ok dec outs now b ra _ _ tr n sl hres]
        exact ⟨le_refl 1, processForUpload_count dec b⟩
      | error a =>
        rw [transcribeSend_error dec outs now b ra _ _ a n sl hres]
        exact ⟨le_refl 1, processForUpload_count dec b⟩
  · have h2 : truthyHit
        (getCachedTranscription now (createHashUnits b.content) store).1 = true := by
      revert h
      cases truthyHit (getCachedTranscription now (createHashUnits b.content) store).1
      · intro h; exact absurd rfl h
      · intro _; rfl
    cases hl : (getCachedTranscription now (createHashUnits b.content) store).1 with
    | none => rw [hl] at h2; exact absurd h2 (by simp [truthyHit])
    | some c =>
      rw [hl] at h2
      have hc : c ≠ "" := by
        intro hc1
        subst hc1
        simp [truthyHit] at h2
      rw [transcribeAudio_hit dec outs now b ra store c hl hc]
      exact ⟨Nat.zero_le 1, Nat.zero_le 1⟩

/-! ## Claims about the retry loop -/

/-- C1: after a failed attempt the loop aborts and surfaces the classified
`AppError` iff `attempt == maxAttempts` or the classified error is not
retryable; otherwise it sleeps `getRetryDelay attempt` (which is
`min(1000 * 2^attempt, 10000)`: 1000, 2000, 4000, 8000 ms for attempts 0..3
and 10000 ms for attempt 10) and reissues the request; and audio processing
runs at most once per call, never again for retries. -/
theorem c1_retry_policy (outcomes : Nat → Except JSObj String) (context : String)
    (maxAttempts attempt fuel : Nat) (e : JSObj)
    (hout : outcomes attempt = Except.error e) (hle : attempt ≤ maxAttempts) :
    (retryLoop outcomes context maxAttempts (fuel + 1) attempt =
        ⟨.error (classify e context), 1, []⟩
      ↔ (attempt = maxAttempts ∨ (classify e context).retryable = false))
    ∧ (attempt ≠ maxAttempts → (classify e context).retryable = true →
        retryLoop outcomes context maxAttempts (fuel + 1) attempt =
          ⟨(retryLoop outcomes context maxAttempts fuel (attempt + 1)).result,
            (retryLoop outcomes context maxAttempts fuel (attempt + 1)).requests + 1,
            getRetryDelay attempt ::
              (retryLoop outcomes context maxAttempts fuel (attempt + 1)).sleeps⟩)
    ∧ getRetryDelay 0 = 1000 ∧ getRetryDelay 1 = 2000 ∧ getRetryDelay 2 = 4000
    ∧ getRetryDelay 3 = 8000 ∧ getRetryDelay 10 = 10000
    ∧ (∀ (dec : Decoder) (outs2 : Nat → Except JSObj String) (now : Nat) (b : Blob)
        (ra : Nat) (store : CacheStore String),
        (transcribeAudio dec outs2 now b ra store).noiseApplied ≤ 1
        ∧ (transcribeAudio dec outs2 now b ra store).compressionApplied ≤ 1) := by
  refine ⟨⟨?_, retryLoop_abort outcomes context maxAttempts attempt fuel e hout⟩,
    ?_, by decide, by decide, by decide, by decide, by decide,
    fun dec outs2 now b ra store =>
      transcribeAudio_process_once dec outs2 now b ra store⟩
  · intro heq
    by_cases hA : attempt = maxAttempts
    · exact Or.inl hA
    · by_cases hR : (classify e context).retryable = false
      · exact Or.inr hR
      · exfalso
        have hr : (classify e context).retryable = true := by
          revert hR
          cases (classify e context).retryable
          · intro h; exact absurd rfl h
          · intro _; rfl
        have hlt : attempt < maxAttempts := by omega
        rw [retryLoop_retry outcomes context maxAttempts attempt fuel e hout hlt hr]
          at heq
        have hc := congrArg LoopOut.sleeps heq
        simp at hc
  · intro hne hr
    exact retryLoop_retry outcomes context maxAttempts attempt fuel e hout
      (by omega) hr

/-- C1 witness: a 500-failure at the final attempt (`attempt = maxAttempts
= 3`) aborts with the classified error after exactly that one request and
no sleep. -/
theorem c1_retry_policy_witness :
    retryLoop (fun _ => Except.error ⟨false, "HTTP 500", some 500, none⟩)
        "chat" 3 1 3 =
      ⟨.error (classify ⟨false, "HTTP 500", some 500, none⟩ "chat"), 1, []⟩ :=
  (c1_retry_policy (fun _ => Except.error ⟨false, "HTTP 500", some 500, none⟩)
    "chat" 3 3 0 ⟨false, "HTTP 500", some 500, none⟩ rfl (by decide)).1.mpr
    (Or.inl rfl)

/-- C5: a non-retryable classified failure on attempt 0 — for a transcribe
call and for a chat call that both miss the cache — surfaces the classified
`AppError` immediately: exactly one underlying request, no backoff sleep,
no further attempts. -/
theorem c5_nonretryable_surfaces_immediately
    (dec : Decoder) (outs outs2 : Nat → Except JSObj String) (now now2 : Nat)
    (b : Blob) (msg : String) (ra ra2 : Nat) (store store2 : CacheStore String)
    (e e2 : JSObj)
    (hmiss : truthyHit
      (getCachedTranscription now (createHashUnits b.content) store).1 = false)
    (h0 : outs 0 = Except.error e)
    (hr : (classify e "transcription").retryable = false)
    (hmiss2 : truthyHit
      (getCachedChatResponse now2 (createHashString msg) store2).1 = false)
    (h02 : outs2 0 = Except.error e2)
    (hr2 : (classify e2 "chat").retryable = false) :
    ((transcribeAudio dec outs now b ra store).result =
        .error (classify e "transcription")
      ∧ (transcribeAudio dec outs now b ra store).requests = 1
      ∧ (transcribeAudio dec outs now b ra store).sleeps = [])
    ∧ ((sendChatMessage outs2 now2 msg ra2 store2).result =
        .error (classify e2 "chat")
      ∧ (sendChatMessage outs2 now2 msg ra2 store2).requests = 1
      ∧ (sendChatMessage outs2 now2 msg ra2 store2).sleeps = []) := by
  have hloop : retryLoop outs "transcription" ra (ra + 1) 0 =
      ⟨.error (classify e "transcription"), 1, []⟩ :=
    retryLoop_abort outs "transcription" ra 0 ra e h0 (Or.inr hr)
  have hloop2 : retryLoop outs2 "chat" ra2 (ra2 + 1) 0 =
      ⟨.error (classify e2 "chat"), 1, []⟩ :=
    retryLoop_abort outs2 "chat" ra2 0 ra2 e2 h02 (Or.inr hr2)
  constructor
  · rw [transcribeAudio_miss dec outs now b ra store hmiss,
      transcribeSend_error dec outs now b ra _ _ _ _ _ hloop]
    exact ⟨rfl, rfl, rfl⟩
  · rw [sendChatMessage_miss outs2 now2 msg ra2 store2 hmiss2,
      chatSend_error outs2 now2 ra2 _ _ _ _ _ hloop2]
    exact ⟨rfl, rfl, rfl⟩

/-- C5 witness: a 401 failure on attempt 0 with an empty cache issues
exactly one request for the transcribe call. -/
theorem c5_nonretryable_surfaces_immediately_witness :
    (transcribeAudio (fun _ => none)
        (fun _ => Except.error ⟨false, "HTTP 401", some 401, none⟩)
        0 ⟨[], 44100⟩ 3 []).requests = 1 :=
  (c5_nonretryable_surfaces_immediately (fun _ => none)
    (fun _ => Except.error ⟨false, "HTTP 401", some 401, none⟩)
    (fun _ => Except.error ⟨false, "HTTP 401", some 401, none⟩)
    0 0 ⟨[], 44100⟩ "hi" 3 3 [] []
    ⟨false, "HTTP 401", some 401, none⟩ ⟨false, "HTTP 401", some 401, none⟩
    (by decide) rfl (by decide) (by decide) rfl (by decide)).1.2.1

/-! ## Claims about the error classifier -/

/-- C3 counterexample: `handleApiError(null, 'chat')` throws — the network
`instanceof` test passes harmlessly, but reading `error.status` on `null`
raises a `TypeError`, so the classifier is not total on all raw inputs. -/
theorem c3_not_total_on_null :
    handleApiError RawJS.jsNull "chat" = Except.error ()
    ∧ handleApiError RawJS.jsUndefined "transcription" = Except.error ()
    ∧ handleMicrophoneError RawJS.jsNull = Except.error () :=
  ⟨rfl, rfl, rfl⟩

/-- C3 (amended): for every raw error that is not `null` or `undefined` —
any object, with or without a `status` field, and any primitive, on which
every property read is defined — and every context string, the classifier
returns some `AppError` and never throws.  On `null` and `undefined` the
property read `error.status` throws a `TypeError`. -/
theorem c3_total_on_objects (o : JSObj) (context : String) :
    ∃ a : AppError, handleApiError (RawJS.obj o) context = Except.ok a :=
  ⟨classify o context, rfl⟩

/-- The DOMException thrown by `fetch` when its `AbortController` signal
fires (the timeout path of `ApiClient.fetchWithTimeout`).  Modelled from the
platform: the rejection value is a `DOMException` with `name` equal to
`AbortError`; it is not an `instanceof TypeError` and its message does not
contain the substring `fetch`. -/
def abortErr : JSObj := ⟨false, "The user aborted a request.", none, some "AbortError"⟩

/-- C2 counterexample: the failure produced by a timed-out (aborted) fetch
does not classify to `NETWORK_ERROR` — in the transcription context it
classifies to `TRANSCRIPTION_ERROR`. -/
theorem c2_timeout_not_network_error :
    (classify abortErr "transcription").type = ErrorType.TRANSCRIPTION_ERROR
    ∧ ¬((classify abortErr "transcription").type = ErrorType.NETWORK_ERROR) := by
  decide

/-- C2 (amended): a request whose in-flight fetch exceeds the timeout budget
is aborted, and the resulting `AbortError` is classified as retryable — like
a network failure — but its kind is the context-specific one:
`TRANSCRIPTION_ERROR` for transcribe calls and `CHAT_ERROR` for chat calls,
not `NETWORK_ERROR` (an `AbortError` is not an `instanceof TypeError`, so
the network branch of the classifier does not fire). -/
theorem c2_timeout_classified_retryable :
    handleApiError (RawJS.obj abortErr) "transcription" =
      Except.ok (classify abortErr "transcription")
    ∧ (classify abortErr "transcription").type = ErrorType.TRANSCRIPTION_ERROR
    ∧ (classify abortErr "transcription").retryable = true
    ∧ (classify abortErr "chat").type = ErrorType.CHAT_ERROR
    ∧ (classify abortErr "chat").retryable = true := by
  refine ⟨rfl, ?_, ?_, ?_, ?_⟩ <;> decide

/-- C4: when the network branch does not fire (per the classifier's decision
order) and the raw error carries a truthy HTTP status `s`, the result is an
`API_ERROR` whose retryability is false exactly for 400 and 401 (so 429, 500
and any unmapped status such as 503 are retryable); and a permission-denied
capture failure (`name === 'NotAllowedError'`) maps to `MICROPHONE_ERROR`
with `retryable = false`. -/
theorem c4_status_mapping (o : JSObj) (context : String) (s : Int)
    (hnet : (o.isTypeError && strIncludes o.message "fetch") = false)
    (hs : o.status = some s) (hs0 : s ≠ 0) :
    ((classify o context).type = ErrorType.API_ERROR
      ∧ ((classify o context).retryable = false ↔ s = 400 ∨ s = 401))
    ∧ ∀ m : JSObj, m.name = some "NotAllowedError" →
        (micClassify m).type = ErrorType.MICROPHONE_ERROR
        ∧ (micClassify m).retryable = false := by
  constructor
  · have hcl : classify o context = classifyStatus s o := by
      simp [classify, hnet, hs, hs0]
    rw [hcl]
    by_cases h400 : s = 400
    · simp [classifyStatus, h400, createError]
    · by_cases h401 : s = 401
      · simp [classifyStatus, h400, h401, createError]
      · by_cases h429 : s = 429
        · simp [classifyStatus, h400, h401, h429, createError]
        · by_cases h500 : s = 500
          · simp [classifyStatus, h400, h401, h429, h500, createError]
          · simp [classifyStatus, h400, h401, h429, h500, createError]
  · intro m hm
    constructor <;> simp [micClassify, hm, createError]

/-- C4 witness: a plain object with status 429 classifies to a retryable
`API_ERROR`, and a `NotAllowedError` capture failure to a non-retryable
`MICROPHONE_ERROR`. -/
theorem c4_status_mapping_witness :
    ((classify ⟨false, "Too Many Requests", some 429, none⟩ "chat").type =
        ErrorType.API_ERROR
      ∧ ((classify ⟨false, "Too Many Requests", some 429, none⟩ "chat").retryable
          = false ↔ (429 : Int) = 400 ∨ (429 : Int) = 401))
    ∧ ∀ m : JSObj, m.name = some "NotAllowedError" →
        (micClassify m).type = ErrorType.MICROPHONE_ERROR
        ∧ (micClassify m).retryable = false :=
  c4_status_mapping ⟨false, "Too Many Requests", some 429, none⟩ "chat" 429
    (by decide) rfl (by decide)

/-! ## Claims about the audio processor -/

/-- Noise reduction preserves the sample rate when the decoder reads the
rate recorded in the blob's container. -/
theorem applyNoiseReduction_sampleRate (dec : Decoder) (b : Blob)
    (hdec : ∀ b2 buf, dec b2 = some buf → buf.sampleRate = b2.sampleRate) :
    (applyNoiseReduction dec b).sampleRate = b.sampleRate := by
  cases hd : dec b with
  | none => simp [applyNoiseReduction, hd]
  | some buf => simp [applyNoiseReduction, hd, audioBufferToBlob, hdec b buf hd]

/-- C8: for a blob of at most 200 KiB the compression step is never invoked
and the pipeline's output keeps the original sample rate; for a larger blob
compression is invoked and (when its decode succeeds) the output sample rate
is exactly `min(original, 22050)`, hence at most 22050 Hz and never above
the original rate.  `hdec` states that the platform decoder reports the
sample rate recorded in the blob's container. -/
theorem c8_conditional_compression (dec : Decoder) (b : Blob)
    (hdec : ∀ b2 buf, dec b2 = some buf → buf.sampleRate = b2.sampleRate) :
    (b.size ≤ 200 * 1024 →
      (processForUpload dec b).2 = 0
      ∧ (processForUpload dec b).1.sampleRate = b.sampleRate)
    ∧ (200 * 1024 < b.size →
      (processForUpload dec b).2 = 1
      ∧ ((dec (applyNoiseReduction dec b)).isSome = true →
          (processForUpload dec b).1.sampleRate = min b.sampleRate 22050
          ∧ (processForUpload dec b).1.sampleRate ≤ 22050
          ∧ (processForUpload dec b).1.sampleRate ≤ b.sampleRate)) := by
  constructor
  · intro hsmall
    have hno : ¬(b.size > 200 * 1024) := by omega
    constructor
    · simp [processForUpload, hno]
    · simp [processForUpload, hno, applyNoiseReduction_sampleRate dec b hdec]
  · intro hbig
    constructor
    · simp [processForUpload, hbig]
    · intro hsome
      cases hd2 : dec (applyNoiseReduction dec b) with
      | none => rw [hd2] at hsome; exact absurd hsome (by simp)
      | some buf2 =>
        have hb2 : buf2.sampleRate = b.sampleRate := by
          rw [hdec _ buf2 hd2]
          exact applyNoiseReduction_sampleRate dec b hdec
        have hrate : (processForUpload dec b).1.sampleRate =
            min b.sampleRate 22050 := by
          simp [processForUpload, hbig, compressAudio, hd2, audioBufferToBlob, hb2]
        exact ⟨hrate, by rw [hrate]; exact Nat.min_le_right _ _,
          by rw [hrate]; exact Nat.min_le_left _ _⟩

/-- C8 witness: a 204801-byte blob at 44.1 kHz is compressed. -/
theorem c8_conditional_compression_witness :
    (processForUpload (fun b2 => some ⟨1, 100, b2.sampleRate⟩)
        ⟨List.replicate 204801 0, 44100⟩).2 = 1 :=
  ((c8_conditional_compression (fun b2 => some ⟨1, 100, b2.sampleRate⟩)
      ⟨List.replicate 204801 0, 44100⟩
      (fun b2 buf h => by injection h with h2; rw [← h2])).2
    (by simp only [Blob.size, List.length_replicate]; omega)).1

/-- C9: when decoding the blob fails, each processing step returns the
original blob unchanged (the same value, byte for byte) instead of
propagating the failure, and the whole pipeline yields the original blob —
processing never aborts the pipeline or surfaces an error. -/
theorem c9_decode_failure_passthrough (dec : Decoder) (b : Blob)
    (hfail : dec b = none) :
    applyNoiseReduction dec b = b
    ∧ compressAudio dec b = b
    ∧ processForUpload dec b = (b, if 200 * 1024 < b.size then 1 else 0) := by
  have h1 : applyNoiseReduction dec b = b := by simp [applyNoiseReduction, hfail]
  have h2 : compressAudio dec b = b := by simp [compressAudio, hfail]
  refine ⟨h1, h2, ?_⟩
  by_cases h : 200 * 1024 < b.size
  · simp [processForUpload, h, h1, h2]
  · simp [processForUpload, h, h1]

/-- C9 witness: with a failing decoder, noise reduction passes a concrete
blob through unchanged. -/
theorem c9_decode_failure_passthrough_witness :
    applyNoiseReduction (fun _ => none) ⟨[1, 2, 3], 44100⟩ = ⟨[1, 2, 3], 44100⟩ :=
  (c9_decode_failure_passthrough (fun _ => none) ⟨[1, 2, 3], 44100⟩ rfl).1

/-! ## Claims about caching in the client -/

/-- C7 counterexample: `transcribeAudio` called twice with byte-identical
audio content, the first call succeeding with the empty transcript and the
second call immediately after — the second call issues one underlying
request, not zero, because the cached empty string fails the client's
truthiness test `if (cachedResult)`. -/
theorem c7_empty_transcript_reissues_request :
    (transcribeAudio (fun _ => none) (fun _ => Except.ok "") 0 ⟨[], 44100⟩ 3
        []).result = Except.ok ""
    ∧ (transcribeAudio (fun _ => none) (fun _ => Except.ok "") 0 ⟨[], 44100⟩ 3
        (transcribeAudio (fun _ => none) (fun _ => Except.ok "") 0 ⟨[], 44100⟩ 3
          []).store).requests = 1 := by
  decide

/-- C7 (amended): when `transcribeAudio` is called twice with byte-identical
audio content, the first call missing the cache and succeeding with a
NON-EMPTY transcript and the second call within the transcription TTL of the
first, both calls compute the same content hash and the second call returns
the cached transcript with zero underlying requests, no backoff sleeps, no
audio processing and an unchanged store.  (The unamended claim fails only
for an empty transcript, which the client's truthiness test treats as a
miss.) -/
theorem c7_dedup_amended (dec dec2 : Decoder)
    (outs outs2 : Nat → Except JSObj String) (t1 t2 : Nat) (b b2 : Blob)
    (ra ra2 : Nat) (store0 : CacheStore String) (tr : String) (n : Nat)
    (sl : List Nat)
    (hb2 : b2.content = b.content)
    (hmiss : truthyHit
      (getCachedTranscription t1 (createHashUnits b.content) store0).1 = false)
    (hloop : retryLoop outs "transcription" ra (ra + 1) 0 = ⟨.ok tr, n, sl⟩)
    (hne : tr ≠ "")
    (ht : t2 ≤ t1 + TRANSCRIPTION_TTL) :
    createHashUnits b2.content = createHashUnits b.content
    ∧ (transcribeAudio dec outs t1 b ra store0).result = .ok tr
    ∧ transcribeAudio dec2 outs2 t2 b2 ra2
        (transcribeAudio dec outs t1 b ra store0).store =
      ⟨.ok tr, 0, [], 0, 0, none,
        (transcribeAudio dec outs t1 b ra store0).store⟩ := by
  have hfirst : transcribeAudio dec outs t1 b ra store0 =
      transcribeSend dec outs t1 b ra (createHashUnits b.content)
        (getCachedTranscription t1 (createHashUnits b.content) store0).2 :=
    transcribeAudio_miss dec outs t1 b ra store0 hmiss
  have hsend := transcribeSend_ok dec outs t1 b ra (createHashUnits b.content)
    (getCachedTranscription t1 (createHashUnits b.content) store0).2 tr n sl hloop
  have hstore : (transcribeAudio dec outs t1 b ra store0).store =
      cacheTranscription t1 (createHashUnits b.content) tr
        (getCachedTranscription t1 (createHashUnits b.content) store0).2 := by
    rw [hfirst, hsend]
  have hresult : (transcribeAudio dec outs t1 b ra store0).result = .ok tr := by
    rw [hfirst, hsend]
  have hget : storeGet (transcribeAudio dec outs t1 b ra store0).store
      (createKey "transcription" (createHashUnits b.content)) =
      some ⟨tr, t1, t1 + TRANSCRIPTION_TTL⟩ := by
    rw [hstore]
    exact cacheSet_storeGet_self t1 _ tr TRANSCRIPTION_TTL _
  have hlook : getCachedTranscription t2 (createHashUnits b2.content)
      (transcribeAudio dec outs t1 b ra store0).store =
      (some tr, (transcribeAudio dec outs t1 b ra store0).store) := by
    rw [hb2]
    have hexp : ¬(t1 + TRANSCRIPTION_TTL < t2) := by omega
    simp [getCachedTranscription, cacheGet, hget, hexp]
  refine ⟨by rw [hb2], hresult, ?_⟩
  have hl1 : (getCachedTranscription t2 (createHashUnits b2.content)
      (transcribeAudio dec outs t1 b ra store0).store).1 = some tr := by
    rw [hlook]
  rw [transcribeAudio_hit dec2 outs2 t2 b2 ra2
    (transcribeAudio dec outs t1 b ra store0).store tr hl1 hne, hlook]

/-- C7 witness: a successful first call with transcript `hello` makes the
immediate second call with the same bytes a pure cache hit. -/
theorem c7_dedup_amended_witness :
    transcribeAudio (fun _ => none) (fun _ => Except.error maxRetriesExceeded) 5
        ⟨[], 44100⟩ 2
        (transcribeAudio (fun _ => none) (fun _ => Except.ok "hello") 0
          ⟨[], 44100⟩ 3 []).store =
      ⟨.ok "hello", 0, [], 0, 0, none,
        (transcribeAudio (fun _ => none) (fun _ => Except.ok "hello") 0
          ⟨[], 44100⟩ 3 []).store⟩ :=
  (c7_dedup_amended (fun _ => none) (fun _ => none)
    (fun _ => Except.ok "hello") (fun _ => Except.error maxRetriesExceeded)
    0 5 ⟨[], 44100⟩ ⟨[], 44100⟩ 3 2 [] "hello" 1 []
    rfl (by decide) rfl (by decide) (by decide)).2.2
